import Mathlib

/-!
Shallow embedding of the ACP run-orchestration server.

The authoritative source is `src/python/src/acp_sdk/server/server.py`, which
defines the route handlers `create_run`, `read_run`, `resume_run`, `cancel_run`
and the lookups `find_run_bundle` / `find_agent` over the in-process `runs` and
`agents` dictionaries.  The `RunBundle` execution machinery (`bundle.py`), the
`acp_sdk.models` module (`Run`, `RunStatus`, events) and the SSE adapter
(`stream_sse`) are not part of the provided sources; the definitions for those
parts are modelled from the specification and are marked as such in their doc
comments.  Everything else is translated directly from `server.py`.
-/

namespace ACP

/-- Modelled from the spec: the `RunStatus` enumeration of `acp_sdk.models`
(not under the provided sources).  Section 4.2 of the spec names the states
`Created → InProgress → {Awaiting ↔ InProgress} → {Completed | Failed |
Cancelled}` with `Cancelling` as the transient cancellation state. -/
inductive RunStatus where
  | created
  | in_progress
  | awaiting
  | cancelling
  | completed
  | failed
  | cancelled
deriving DecidableEq, Repr

/-- Modelled from the spec: `RunStatus.is_terminal` from `acp_sdk.models`
(used by `cancel_run` in `server.py`); terminal states are Completed, Failed
and Cancelled. -/
def RunStatus.is_terminal : RunStatus → Bool
  | .completed => true
  | .failed => true
  | .cancelled => true
  | _ => false

/-- Modelled from the spec: the `Event` union of `acp_sdk.models` (not under
the provided sources): Message, Artifact, Await and status updates.  Payload
contents are kept as strings; the claims do not depend on their structure. -/
inductive Event where
  | message (content : String)
  | artifact (name : String) (content : String)
  | await_request
  | status_update (s : RunStatus)
deriving DecidableEq, Repr

/-- Modelled from the spec: one step of an agent handler's lazy event
sequence (spec section 4.1): the handler either emits an Event, yields an
Await and suspends until a resume payload arrives, or raises an error.
Normal completion is exhaustion of the step list.  The concrete handler code
is arbitrary user code outside the provided sources. -/
inductive HandlerStep where
  | emit (e : Event)
  | await_resume
  | fail (msg : String)
deriving DecidableEq, Repr

/-- Agent handle: a registered named capability (`acp_sdk.server.agent.Agent`,
declared outside the provided sources; `server.py` reads its `name` and
`description`).  The handler's behaviour is modelled from the spec as a fixed
list of `HandlerStep`s. -/
structure Agent where
  name : String
  description : String
  script : List HandlerStep
deriving DecidableEq, Repr

/-- Modelled from the spec: the `Run` record of `acp_sdk.models` (not under
the provided sources): identifier, agent name, optional session identifier,
status, accumulated output, terminal error.  `server.py` constructs it with
`Run(agent_name=..., session_id=...)`, all other fields defaulted. -/
structure Run where
  run_id : Nat
  agent_name : String
  session_id : Option Nat
  status : RunStatus := .created
  output : List Event := []
  error : Option String := none
deriving DecidableEq, Repr

/-- Run bundle state (`acp_sdk.server.bundle.RunBundle`; the class itself is
outside the provided sources, but `server.py` reads and writes the fields
`run`, `task`, `stream_queue` and `await_queue` directly).
`task_cancelled` models `bundle.task.cancel()` having been requested;
`stream_queue` models the contents of the `asyncio.Queue` used for event
delivery; `queue_generation` counts how many times `resume_run` has replaced
that queue with a fresh one (`bundle.stream_queue = asyncio.Queue()`);
`await_queue` holds resume payloads put by `resume_run`; `script` is the
remaining handler steps of the scheduled execution (modelled from the spec). -/
structure RunBundle where
  run : Run
  script : List HandlerStep
  task_cancelled : Bool := false
  stream_queue : List Event := []
  queue_generation : Nat := 0
  await_queue : List String := []
deriving DecidableEq, Repr

/-- HTTP error as raised by `HTTPException(status_code=..., detail=...)` in
`server.py`. -/
structure HTTPError where
  status_code : Nat
  detail : String
deriving DecidableEq, Repr

/-- Run mode from `acp_sdk.models.RunMode` (declared outside the provided
sources; `server.py` matches on `RunMode.STREAM / SYNC / ASYNC`). -/
inductive RunMode where
  | sync
  | async
  | stream
deriving DecidableEq, Repr

/-- Request body of `POST /runs` (`RunCreateRequest`): agent name, input,
session id, mode. -/
structure RunCreateRequest where
  agent_name : String
  input : List String
  session_id : Option Nat := none
  mode : RunMode
deriving DecidableEq, Repr

/-- Request body of `POST /runs/{run_id}` (`RunResumeRequest`): the resume
payload `await_` and the mode. -/
structure RunResumeRequest where
  await_ : String
  mode : RunMode
deriving DecidableEq, Repr

/-- Response of a run operation: a plain run snapshot (sync), a 202-accepted
snapshot (async), or a streaming response carrying the events delivered on the
stream together with the run's state when the stream closes. -/
inductive RunResponse where
  | snapshot (run : Run)
  | accepted (run : Run)
  | stream (events : List Event) (run : Run)
deriving DecidableEq, Repr

/-- The server's mutable state: the agent registry `agents` and the run
registry `runs` from `create_app` in `server.py` (both process-scoped
dictionaries), plus `next_run_id` modelling the generator of fresh unique run
identifiers (uuid in the source). -/
structure ServerState where
  agents : List Agent
  runs : List (Nat × RunBundle)
  next_run_id : Nat
deriving DecidableEq, Repr

/-- `dict.get` on the run registry: first binding for the key, if any. -/
def dictGet : List (Nat × RunBundle) → Nat → Option RunBundle
  | [], _ => none
  | (k, v) :: rest, id => if k = id then some v else dictGet rest id

/-- `dict[key] = value` on the run registry: replace the first binding for
the key, or append a new binding. -/
def dictSet : List (Nat × RunBundle) → Nat → RunBundle → List (Nat × RunBundle)
  | [], id, b => [(id, b)]
  | (k, v) :: rest, id, b =>
      if k = id then (id, b) :: rest else (k, v) :: dictSet rest id b

/-- `find_run_bundle` from `server.py`: look the run id up in `runs`; raise
404 if absent. -/
def find_run_bundle (runs : List (Nat × RunBundle)) (run_id : Nat) :
    Except HTTPError RunBundle :=
  match dictGet runs run_id with
  | some bundle => .ok bundle
  | none => .error ⟨404, "Run " ++ toString run_id ++ " not found"⟩

/-- `find_agent` from `server.py`: look the agent name up in `agents`; raise
404 if absent. -/
def find_agent (agents : List Agent) (agent_name : String) :
    Except HTTPError Agent :=
  match agents.find? (fun a => a.name == agent_name) with
  | some agent => .ok agent
  | none => .error ⟨404, "Agent " ++ agent_name ++ " not found"⟩

/-- Modelled from the spec: the body of `RunBundle.execute` consuming the
handler's lazy sequence (spec sections 4.1 and 4.2): each emitted Event is
appended to the run's accumulated output and put on the delivery queue; an
Await event is likewise recorded and then the execution suspends in the
Awaiting state to wait for a resume payload; exhaustion finalizes the run as
Completed; a raise finalizes it as Failed with the error captured. -/
def execSteps : List HandlerStep → RunBundle → RunBundle
  | [], b =>
      { b with script := [], run := { b.run with status := .completed } }
  | .emit e :: rest, b =>
      execSteps rest
        { b with script := rest,
                 run := { b.run with output := b.run.output ++ [e] },
                 stream_queue := b.stream_queue ++ [e] }
  | .await_resume :: rest, b =>
      { b with script := rest,
               run := { b.run with status := .awaiting,
                                   output := b.run.output ++ [Event.await_request] },
               stream_queue := b.stream_queue ++ [Event.await_request] }
  | .fail msg :: _, b =>
      { b with script := [],
               run := { b.run with status := .failed, error := some msg } }

/-- Modelled from the spec: the execution unit of a Run Bundle making progress
up to its next suspension point (spec sections 4.2 and 5).  A terminal run
never moves again; a cancellation request is observed at the next suspension
point and resolves to Cancelled; an Awaiting run resumes only once a resume
payload is available on the resume-data channel, consuming exactly one
payload; otherwise the scheduled handler runs until it awaits, completes or
fails. -/
def scheduleProgress (b : RunBundle) : RunBundle :=
  if b.run.status.is_terminal then b
  else if b.task_cancelled then
    { b with script := [], run := { b.run with status := .cancelled } }
  else
    match b.run.status with
    | .awaiting =>
        match b.await_queue with
        | [] => b
        | _ :: rest =>
            execSteps b.script
              { b with await_queue := rest,
                       run := { b.run with status := .in_progress } }
    | _ => execSteps b.script { b with run := { b.run with status := .in_progress } }

/-- `create_run` from `server.py` (`POST /runs`): find the agent (404 when the
name is unknown), build a fresh `RunBundle`, schedule its execution task,
insert it into the run registry, then answer according to the mode.  SYNC
awaits `bundle.join()` (modelled from the spec: block until the run is
terminal or reaches its first Await) and returns the run; ASYNC returns the
run snapshot immediately with 202; STREAM returns a streaming response fed by
the bundle's delivery queue (`stream_sse`, modelled from the spec: the stream
carries the delivered events and closes when the run is terminal or
Awaiting). -/
def create_run (s : ServerState) (request : RunCreateRequest) :
    Except HTTPError (RunResponse × ServerState) :=
  match find_agent s.agents request.agent_name with
  | .error e => .error e
  | .ok agent =>
    let run : Run :=
      { run_id := s.next_run_id, agent_name := agent.name,
        session_id := request.session_id }
    let bundle : RunBundle := { run := run, script := agent.script }
    let s1 : ServerState :=
      { s with runs := dictSet s.runs run.run_id bundle,
               next_run_id := s.next_run_id + 1 }
    match request.mode with
    | .stream =>
        let b := scheduleProgress bundle
        .ok (.stream b.stream_queue b.run,
             { s1 with runs := dictSet s1.runs run.run_id b })
    | .sync =>
        let b := scheduleProgress bundle
        .ok (.snapshot b.run,
             { s1 with runs := dictSet s1.runs run.run_id b })
    | .async => .ok (.accepted bundle.run, s1)

/-- `read_run` from `server.py` (`GET /runs/{run_id}`): find the bundle (404
when absent) and return its run snapshot. -/
def read_run (s : ServerState) (run_id : Nat) : Except HTTPError Run :=
  match find_run_bundle s.runs run_id with
  | .error e => .error e
  | .ok bundle => .ok bundle.run

/-- The in-place effect of `resume_run` on the bundle (`server.py` lines
118-119): `bundle.stream_queue = asyncio.Queue()` replaces the delivery queue
with a fresh empty one, and `await bundle.await_queue.put(request.await_)`
enqueues the resume payload.  The run record itself is not touched and the
run's status is not checked. -/
def resumeBundle (payload : String) (b : RunBundle) : RunBundle :=
  { b with stream_queue := [],
           queue_generation := b.queue_generation + 1,
           await_queue := b.await_queue ++ [payload] }

/-- `resume_run` from `server.py` (`POST /runs/{run_id}`): find the bundle
(404 when absent), replace the stream queue, put the payload on the await
queue, then answer according to the mode exactly as `create_run` does.  No
status check is performed. -/
def resume_run (s : ServerState) (run_id : Nat) (request : RunResumeRequest) :
    Except HTTPError (RunResponse × ServerState) :=
  match find_run_bundle s.runs run_id with
  | .error e => .error e
  | .ok bundle0 =>
    let bundle := resumeBundle request.await_ bundle0
    let s1 : ServerState := { s with runs := dictSet s.runs run_id bundle }
    match request.mode with
    | .stream =>
        let b := scheduleProgress bundle
        .ok (.stream b.stream_queue b.run,
             { s1 with runs := dictSet s1.runs run_id b })
    | .sync =>
        let b := scheduleProgress bundle
        .ok (.snapshot b.run,
             { s1 with runs := dictSet s1.runs run_id b })
    | .async => .ok (.accepted bundle.run, s1)

/-- The in-place effect of `cancel_run` on a non-terminal bundle
(`server.py` lines 145-146): `bundle.task.cancel()` requests cancellation of
the execution task and the run's status is set to Cancelling. -/
def cancelledBundle (b : RunBundle) : RunBundle :=
  { b with task_cancelled := true,
           run := { b.run with status := .cancelling } }

/-- `cancel_run` from `server.py` (`POST /runs/{run_id}/cancel`): find the
bundle (404 when absent); if the run's status is terminal raise 403; otherwise
cancel the execution task, set the status to Cancelling and return the run
snapshot with 202. -/
def cancel_run (s : ServerState) (run_id : Nat) :
    Except HTTPError (Run × ServerState) :=
  match find_run_bundle s.runs run_id with
  | .error e => .error e
  | .ok bundle0 =>
    if bundle0.run.status.is_terminal then
      .error ⟨403, "Run with terminal status can't be cancelled"⟩
    else
      .ok ((cancelledBundle bundle0).run,
           { s with runs := dictSet s.runs run_id (cancelledBundle bundle0) })

/-- State after an operation: the new state on success, the old state when the
request was rejected (an `HTTPException` aborts the request before any state
change in the corresponding handler). -/
def resultState {α : Type} (s : ServerState)
    (r : Except HTTPError (α × ServerState)) : ServerState :=
  match r with
  | .ok (_, s1) => s1
  | .error _ => s

/-- Rank of a status in the spec's monotonicity ordering
`Created < InProgress ≈ Awaiting (cyclic) < {Completed, Failed, Cancelled}`,
with Cancelling a transient sub-state of the middle layer. -/
def statusRank : RunStatus → Nat
  | .created => 0
  | .in_progress => 1
  | .awaiting => 1
  | .cancelling => 1
  | .completed => 2
  | .failed => 2
  | .cancelled => 2

/-- One externally driven step on a run bundle: a cancellation request that
passes `cancel_run`'s terminal-status guard, the queue replacement and payload
delivery of `resume_run` (applied unconditionally, as in the source), or
progress of the bundle's own execution unit. -/
inductive BundleStep : RunBundle → RunBundle → Prop where
  | cancel {b : RunBundle} (h : b.run.status.is_terminal = false) :
      BundleStep b (cancelledBundle b)
  | resume {b : RunBundle} (payload : String) :
      BundleStep b (resumeBundle payload b)
  | progress {b : RunBundle} : BundleStep b (scheduleProgress b)

/-- The delivered-event sequence `q` is a contiguous tail segment of the
emitted output `out`: some prefix of the output was never put on this queue
instance, the rest is delivered in order. -/
def isDeliveryTail (q out : List Event) : Prop :=
  ∃ pre, pre ++ q = out

/-- All events ever delivered on the queue instance with generation `g` along
an execution trace: the queue contents at the last trace state still using
that generation (the queue is replaced, not drained, in this model, so this
over-approximates what any single subscriber of that instance can read). -/
def genQueue (g : Nat) (trace : List RunBundle) : List Event :=
  ((trace.filter (fun b => b.queue_generation == g)).map
    (fun b => b.stream_queue)).getLastD []

/-- The bundle state visible to a streaming resume: queue replaced and payload
delivered by `resume_run`, then the execution unit progressed to its next
stopping point (the point at which the SSE stream closes). -/
def resumedBundle (payload : String) (b : RunBundle) : RunBundle :=
  scheduleProgress (resumeBundle payload b)

/-- The bundle as `create_run` constructs it, before any execution: fresh
default `Run` (Created status, empty output) and the agent's full handler
sequence as the scheduled task. -/
def initialBundle (s : ServerState) (req : RunCreateRequest) (agent : Agent) :
    RunBundle :=
  { run := { run_id := s.next_run_id, agent_name := agent.name,
             session_id := req.session_id },
    script := agent.script }

/-- Concrete agent mirroring the `echo`-style fixtures: emits one message. -/
def echoAgent : Agent :=
  { name := "echo", description := "Echoes a message",
    script := [.emit (.message "hi")] }

/-- Concrete agent mirroring the `awaiter` fixture: emits, awaits a resume,
then emits again. -/
def awaiterAgent : Agent :=
  { name := "awaiter", description := "Awaits once",
    script := [.emit (.message "one"), .await_resume, .emit (.message "two")] }

/-- Concrete agent mirroring the `failer` fixture: raises immediately. -/
def failerAgent : Agent :=
  { name := "failer", description := "Raises", script := [.fail "Whoops"] }

/-- A concrete fresh server state with three registered agents and no runs. -/
def demoState : ServerState :=
  { agents := [echoAgent, awaiterAgent, failerAgent], runs := [],
    next_run_id := 0 }

/-- A concrete bundle whose run already completed. -/
def doneBundle : RunBundle :=
  { run := { run_id := 0, agent_name := "echo", session_id := none,
             status := .completed, output := [.message "hi"] },
    script := [] }

/-- A concrete server state holding the completed run 0. -/
def doneState : ServerState :=
  { agents := [echoAgent], runs := [(0, doneBundle)], next_run_id := 1 }

/-- A concrete bundle suspended in the Awaiting state with one step left. -/
def pendingBundle : RunBundle :=
  { run := { run_id := 1, agent_name := "awaiter", session_id := none,
             status := .awaiting, output := [.message "one", .await_request] },
    script := [.emit (.message "two")] }

/-- A concrete server state holding the awaiting run 1. -/
def pendingState : ServerState :=
  { agents := [awaiterAgent], runs := [(1, pendingBundle)], next_run_id := 2 }

/-- A concrete resume request used for the resolved examples. -/
def c1Req : RunResumeRequest := { await_ := "payload", mode := .async }

/-- Execution trace of the awaiter agent: fresh bundle. -/
def c4Bundle0 : RunBundle :=
  { run := { run_id := 2, agent_name := "awaiter", session_id := none },
    script := awaiterAgent.script }

/-- Trace state after the first execution burst (emitted one message and the
Await, now suspended in Awaiting). -/
def c4Bundle1 : RunBundle := scheduleProgress c4Bundle0

/-- Trace state after `resume_run` replaced the stream queue and delivered the
payload. -/
def c4Bundle2 : RunBundle := resumeBundle "ok" c4Bundle1

/-- Trace state after the final execution burst (consumed the payload,
emitted the last message, completed). -/
def c4Bundle3 : RunBundle := scheduleProgress c4Bundle2

/-- The full execution trace of the awaiter run. -/
def c4Trace : List RunBundle := [c4Bundle0, c4Bundle1, c4Bundle2, c4Bundle3]

/-- A concrete async-mode create request for the echo agent. -/
def c7AsyncReq : RunCreateRequest :=
  { agent_name := "echo", input := [], mode := .async }

/-- A concrete sync-mode create request for the awaiter agent. -/
def c7SyncReq : RunCreateRequest :=
  { agent_name := "awaiter", input := [], mode := .sync }

theorem dictGet_dictSet_self (m : List (Nat × RunBundle)) (id : Nat)
    (b : RunBundle) : dictGet (dictSet m id b) id = some b := by
  induction m with
  | nil => simp [dictGet, dictSet]
  | cons kv rest ih =>
    obtain ⟨k, v⟩ := kv
    by_cases h : k = id <;> simp [dictGet, dictSet, h, ih]

theorem dictGet_dictSet_ne (m : List (Nat × RunBundle)) (id id' : Nat)
    (b : RunBundle) (h : id' ≠ id) :
    dictGet (dictSet m id b) id' = dictGet m id' := by
  have h' : ¬id = id' := fun hc => h hc.symm
  induction m with
  | nil => simp [dictGet, dictSet, h']
  | cons kv rest ih =>
    obtain ⟨k, v⟩ := kv
    by_cases hk : k = id
    · subst hk
      simp [dictGet, dictSet, h']
    · simp only [dictSet, if_neg hk, dictGet]
      by_cases hk' : k = id' <;> simp [hk', ih]

theorem dictSet_eq_of_get (m : List (Nat × RunBundle)) (id : Nat)
    (b : RunBundle) (h : dictGet m id = some b) : dictSet m id b = m := by
  induction m with
  | nil => simp [dictGet] at h
  | cons kv rest ih =>
    obtain ⟨k, v⟩ := kv
    by_cases hk : k = id
    · subst hk
      simp [dictGet] at h
      simp [dictSet, h]
    · simp [dictGet, hk] at h
      simp [dictSet, hk, ih h]

theorem execSteps_status (sc : List HandlerStep) (b : RunBundle) :
    (execSteps sc b).run.status = .awaiting ∨
    (execSteps sc b).run.status = .completed ∨
    (execSteps sc b).run.status = .failed := by
  induction sc generalizing b with
  | nil => simp [execSteps]
  | cons step rest ih =>
    cases step with
    | emit e => simpa [execSteps] using ih _
    | await_resume => simp [execSteps]
    | fail msg => simp [execSteps]

theorem execSteps_delta (sc : List HandlerStep) (b : RunBundle) :
    ∃ δ, (execSteps sc b).run.output = b.run.output ++ δ ∧
         (execSteps sc b).stream_queue = b.stream_queue ++ δ := by
  induction sc generalizing b with
  | nil => exact ⟨[], by simp [execSteps]⟩
  | cons step rest ih =>
    cases step with
    | emit e =>
      obtain ⟨δ, h1, h2⟩ :=
        ih { b with script := rest,
                    run := { b.run with output := b.run.output ++ [e] },
                    stream_queue := b.stream_queue ++ [e] }
      exact ⟨e :: δ, by simp [execSteps, h1, h2]⟩
    | await_resume => exact ⟨[Event.await_request], by simp [execSteps]⟩
    | fail msg => exact ⟨[], by simp [execSteps]⟩

theorem execSteps_run_fields (sc : List HandlerStep) (b : RunBundle) :
    (execSteps sc b).run.run_id = b.run.run_id ∧
    (execSteps sc b).run.agent_name = b.run.agent_name ∧
    (execSteps sc b).run.session_id = b.run.session_id := by
  induction sc generalizing b with
  | nil => simp [execSteps]
  | cons step rest ih =>
    cases step with
    | emit e => simpa [execSteps] using ih _
    | await_resume => simp [execSteps]
    | fail msg => simp [execSteps]

theorem scheduleProgress_terminal {b : RunBundle}
    (h : b.run.status.is_terminal = true) : scheduleProgress b = b := by
  simp [scheduleProgress, h]

theorem statusRank_le_one_of_not_terminal {st : RunStatus}
    (h : st.is_terminal = false) : statusRank st ≤ 1 := by
  cases st <;> simp_all [RunStatus.is_terminal, statusRank]

theorem one_le_statusRank_execSteps (sc : List HandlerStep) (b : RunBundle) :
    1 ≤ statusRank (execSteps sc b).run.status := by
  rcases execSteps_status sc b with h | h | h <;> simp [h, statusRank]

theorem scheduleProgress_rank (b : RunBundle) :
    statusRank b.run.status ≤ statusRank (scheduleProgress b).run.status := by
  unfold scheduleProgress
  split
  · exact le_refl _
  next hterm =>
    have hb : statusRank b.run.status ≤ 1 :=
      statusRank_le_one_of_not_terminal (Bool.eq_false_iff.mpr hterm)
    split
    · exact le_trans hb (by simp [statusRank])
    · split
      · split
        · exact le_refl _
        · exact le_trans hb (one_le_statusRank_execSteps _ _)
      · exact le_trans hb (one_le_statusRank_execSteps _ _)

theorem scheduleProgress_close (b : RunBundle) :
    (scheduleProgress b).run.status = .awaiting ∨
    ((scheduleProgress b).run.status).is_terminal = true := by
  unfold scheduleProgress
  split
  next hterm => exact Or.inr hterm
  next hterm =>
    split
    · exact Or.inr rfl
    · split
      next hst =>
        split
        · exact Or.inl hst
        · exact execSteps_status _ _ |>.imp id (fun h => by rcases h with h | h <;> simp [h, RunStatus.is_terminal])
      · exact execSteps_status _ _ |>.imp id (fun h => by rcases h with h | h <;> simp [h, RunStatus.is_terminal])

theorem execSteps_output_of_empty_queue (sc : List HandlerStep)
    (b : RunBundle) (h : b.stream_queue = []) :
    (execSteps sc b).run.output =
      b.run.output ++ (execSteps sc b).stream_queue := by
  obtain ⟨δ, h1, h2⟩ := execSteps_delta sc b
  simp [h1, h2, h]

theorem scheduleProgress_output_of_empty_queue {b : RunBundle}
    (h : b.stream_queue = []) :
    (scheduleProgress b).run.output =
      b.run.output ++ (scheduleProgress b).stream_queue := by
  unfold scheduleProgress
  split
  · simp [h]
  · split
    · simp [h]
    · split
      · split
        · simp [h]
        · exact execSteps_output_of_empty_queue _ _ (by simp [h])
      · exact execSteps_output_of_empty_queue _ _ (by simp [h])

theorem bundleStep_rank {b b' : RunBundle} (h : BundleStep b b') :
    statusRank b.run.status ≤ statusRank b'.run.status ∧
    (b.run.status.is_terminal = true → b'.run = b.run) := by
  cases h with
  | cancel hnt =>
    refine ⟨?_, ?_⟩
    · exact le_trans (statusRank_le_one_of_not_terminal hnt)
        (by simp [cancelledBundle, statusRank])
    · intro ht
      rw [hnt] at ht
      cases ht
  | resume payload => exact ⟨le_refl _, fun _ => rfl⟩
  | progress =>
    exact ⟨scheduleProgress_rank _, fun ht => by rw [scheduleProgress_terminal ht]⟩

theorem bundleSteps_rank {b b' : RunBundle}
    (h : Relation.ReflTransGen BundleStep b b') :
    statusRank b.run.status ≤ statusRank b'.run.status ∧
    (b.run.status.is_terminal = true → b'.run = b.run) := by
  induction h with
  | refl => exact ⟨le_refl _, fun _ => rfl⟩
  | tail hsteps hstep ih =>
    obtain ⟨ihr, iht⟩ := ih
    obtain ⟨hr, ht⟩ := bundleStep_rank hstep
    refine ⟨le_trans ihr hr, fun hterm => ?_⟩
    have hmid := iht hterm
    rw [ht (by rw [hmid, hterm]), hmid]

theorem execSteps_tail (sc : List HandlerStep) (b : RunBundle)
    (h : isDeliveryTail b.stream_queue b.run.output) :
    isDeliveryTail (execSteps sc b).stream_queue (execSteps sc b).run.output := by
  obtain ⟨pre, hpre⟩ := h
  obtain ⟨δ, h1, h2⟩ := execSteps_delta sc b
  exact ⟨pre, by simp [h1, h2, ← hpre]⟩

theorem scheduleProgress_tail (b : RunBundle)
    (h : isDeliveryTail b.stream_queue b.run.output) :
    isDeliveryTail (scheduleProgress b).stream_queue
      (scheduleProgress b).run.output := by
  unfold scheduleProgress
  split
  · exact h
  · split
    · exact h
    · split
      · split
        · exact h
        · exact execSteps_tail _ _ h
      · exact execSteps_tail _ _ h

theorem bundleStep_tail {b b' : RunBundle} (h : BundleStep b b')
    (h0 : isDeliveryTail b.stream_queue b.run.output) :
    isDeliveryTail b'.stream_queue b'.run.output := by
  cases h with
  | cancel hnt => exact h0
  | resume payload => exact ⟨b.run.output, by simp [resumeBundle]⟩
  | progress => exact scheduleProgress_tail b h0

theorem scheduleProgress_run_fields (b : RunBundle) :
    (scheduleProgress b).run.run_id = b.run.run_id ∧
    (scheduleProgress b).run.agent_name = b.run.agent_name ∧
    (scheduleProgress b).run.session_id = b.run.session_id := by
  unfold scheduleProgress
  split
  · simp
  · split
    · simp
    · split
      · split
        · simp
        · simpa using execSteps_run_fields b.script _
      · simpa using execSteps_run_fields b.script _

/-- Counterexample to claim C1 at a concrete input: run 0 is already
Completed (terminal), yet `resume_run` is not rejected with an invalid-state
error: it succeeds with 202 Accepted and the payload is enqueued on the
bundle's resume channel. -/
theorem c1_resume_no_status_check_cex :
    doneBundle.run.status.is_terminal = true ∧
    resume_run doneState 0 c1Req =
      .ok (.accepted doneBundle.run,
           { doneState with
               runs := dictSet doneState.runs 0 (resumeBundle "payload" doneBundle) }) ∧
    (resumeBundle "payload" doneBundle).await_queue = ["payload"] :=
  ⟨rfl, rfl, rfl⟩

/-- Claim C1 (amended): `resume_run` performs no status check: it fails with
404 NotFound when the run identifier is unknown, and on any existing run —
whatever its status, terminal and InProgress included — it succeeds,
delivering the payload to the bundle's resume channel and replacing the
stream queue; the run record itself is untouched by the request handler. -/
theorem c1_resume_enqueues_without_status_check (s : ServerState)
    (run_id : Nat) (payload : String) :
    (dictGet s.runs run_id = none →
       resume_run s run_id { await_ := payload, mode := .async } =
         .error ⟨404, "Run " ++ toString run_id ++ " not found"⟩) ∧
    (∀ b, dictGet s.runs run_id = some b →
       resume_run s run_id { await_ := payload, mode := .async } =
         .ok (.accepted b.run,
              { s with runs := dictSet s.runs run_id (resumeBundle payload b) }) ∧
       (resumeBundle payload b).await_queue = b.await_queue ++ [payload] ∧
       (resumeBundle payload b).run = b.run) := by
  constructor
  · intro h
    unfold resume_run find_run_bundle
    rw [h]
  · intro b h
    unfold resume_run find_run_bundle
    rw [h]
    exact ⟨rfl, rfl, rfl⟩

/-- Witness for the amended claim C1 at a concrete terminal run. -/
theorem c1_resume_enqueues_witness :
    resume_run doneState 0 c1Req =
      .ok (.accepted doneBundle.run,
           { doneState with
               runs := dictSet doneState.runs 0 (resumeBundle "payload" doneBundle) }) :=
  ((c1_resume_enqueues_without_status_check doneState 0 "payload").2
     doneBundle rfl).1

/-- Claim C2: for every run whose status is terminal, `cancel_run` rejects
the request with 403 Forbidden and leaves the server state unchanged; for
every run whose status is not terminal, `cancel_run` marks the execution task
cancelled, sets the status to Cancelling and returns the updated run
snapshot. -/
theorem c2_cancel_terminal_forbidden_else_cancelling
    (s : ServerState) (run_id : Nat) (b : RunBundle)
    (hb : dictGet s.runs run_id = some b) :
    (b.run.status.is_terminal = true →
       cancel_run s run_id =
         .error ⟨403, "Run with terminal status can't be cancelled"⟩ ∧
       resultState s (cancel_run s run_id) = s) ∧
    (b.run.status.is_terminal = false →
       cancel_run s run_id =
         .ok ((cancelledBundle b).run,
              { s with runs := dictSet s.runs run_id (cancelledBundle b) }) ∧
       (cancelledBundle b).run.status = .cancelling ∧
       (cancelledBundle b).task_cancelled = true ∧
       (cancelledBundle b).run.output = b.run.output) := by
  unfold cancel_run find_run_bundle
  rw [hb]
  constructor
  · intro ht
    simp [ht, resultState]
  · intro hf
    simp [hf, cancelledBundle]

/-- Witness for C2 at a concrete terminal run and a concrete awaiting run. -/
theorem c2_cancel_witness :
    cancel_run doneState 0 =
      .error ⟨403, "Run with terminal status can't be cancelled"⟩ ∧
    cancel_run pendingState 1 =
      .ok ((cancelledBundle pendingBundle).run,
           { pendingState with
               runs := dictSet pendingState.runs 1 (cancelledBundle pendingBundle) }) :=
  ⟨((c2_cancel_terminal_forbidden_else_cancelling doneState 0 doneBundle
      rfl).1 (by decide)).1,
   ((c2_cancel_terminal_forbidden_else_cancelling pendingState 1 pendingBundle
      rfl).2 (by decide)).1⟩

/-- Claim C6: every operation taking a run identifier (`read_run`,
`resume_run`, `cancel_run`) fails with 404 NotFound when the identifier is
absent from the run registry, and `create_run` fails with 404 NotFound when
the requested agent name is not registered; each error is returned to the
caller. -/
theorem c6_not_found_errors (s : ServerState) (run_id : Nat) (name : String)
    (input : List String) (m : RunMode) (payload : String)
    (hrun : dictGet s.runs run_id = none)
    (hagent : s.agents.find? (fun a => a.name == name) = none) :
    read_run s run_id =
      .error ⟨404, "Run " ++ toString run_id ++ " not found"⟩ ∧
    resume_run s run_id { await_ := payload, mode := m } =
      .error ⟨404, "Run " ++ toString run_id ++ " not found"⟩ ∧
    cancel_run s run_id =
      .error ⟨404, "Run " ++ toString run_id ++ " not found"⟩ ∧
    create_run s { agent_name := name, input := input, mode := m } =
      .error ⟨404, "Agent " ++ name ++ " not found"⟩ := by
  unfold read_run resume_run cancel_run create_run find_run_bundle find_agent
  rw [hrun, hagent]
  exact ⟨rfl, rfl, rfl, rfl⟩

/-- Witness for C6 at a concrete unknown run id and unknown agent name. -/
theorem c6_not_found_witness :
    read_run demoState 99 =
      .error ⟨404, "Run " ++ toString 99 ++ " not found"⟩ ∧
    resume_run demoState 99 { await_ := "p", mode := .async } =
      .error ⟨404, "Run " ++ toString 99 ++ " not found"⟩ ∧
    cancel_run demoState 99 =
      .error ⟨404, "Run " ++ toString 99 ++ " not found"⟩ ∧
    create_run demoState { agent_name := "ghost", input := [], mode := .async } =
      .error ⟨404, "Agent " ++ "ghost" ++ " not found"⟩ :=
  c6_not_found_errors demoState 99 "ghost" [] .async "p" rfl (by decide)

/-- Claim C10: a `create_run` request naming an unknown agent fails before
any run state is created: the request errors with 404 and the server state —
run registry and run-identifier generator included — is unchanged. -/
theorem c10_create_unknown_agent_atomic (s : ServerState)
    (req : RunCreateRequest)
    (h : s.agents.find? (fun a => a.name == req.agent_name) = none) :
    create_run s req =
      .error ⟨404, "Agent " ++ req.agent_name ++ " not found"⟩ ∧
    resultState s (create_run s req) = s := by
  have h1 : create_run s req =
      .error ⟨404, "Agent " ++ req.agent_name ++ " not found"⟩ := by
    unfold create_run find_agent
    rw [h]
  exact ⟨h1, by simp [resultState, h1]⟩

/-- Witness for C10 at a concrete unknown agent name. -/
theorem c10_create_unknown_agent_witness :
    create_run demoState { agent_name := "ghost", input := [], mode := .sync } =
      .error ⟨404, "Agent " ++ "ghost" ++ " not found"⟩ ∧
    resultState demoState
      (create_run demoState { agent_name := "ghost", input := [], mode := .sync }) =
      demoState :=
  c10_create_unknown_agent_atomic demoState
    { agent_name := "ghost", input := [], mode := .sync } (by decide)

/-- Claim C3: over any sequence of bundle steps (cancel requests admitted by
the terminal guard, resume deliveries, execution progress), the run's status
is monotone over the ordering Created < InProgress ≈ Awaiting ≈ Cancelling <
{Completed, Failed, Cancelled}, and once a terminal status is reached no step
ever changes it. -/
theorem c3_status_monotonic_terminal_absorbing {b b' : RunBundle}
    (h : Relation.ReflTransGen BundleStep b b') :
    statusRank b.run.status ≤ statusRank b'.run.status ∧
    (b.run.status.is_terminal = true → b'.run.status = b.run.status) := by
  obtain ⟨hr, ht⟩ := bundleSteps_rank h
  exact ⟨hr, fun hterm => by rw [ht hterm]⟩

/-- Witness for C3: a resume step on a concrete completed bundle leaves the
terminal status unchanged. -/
theorem c3_status_monotonic_witness :
    statusRank doneBundle.run.status ≤
      statusRank (resumeBundle "x" doneBundle).run.status ∧
    (doneBundle.run.status.is_terminal = true →
       (resumeBundle "x" doneBundle).run.status = doneBundle.run.status) :=
  c3_status_monotonic_terminal_absorbing
    (Relation.ReflTransGen.single (BundleStep.resume "x"))

/-- Counterexample to claim C4 at a concrete input: along the awaiter run's
trace, a consumer that subscribes at `c4Bundle1` (status Awaiting, before
termination) reads the generation-0 queue instance; every event that queue
instance ever carries is [message "one", Await], while the run emits three
events in total — `resume_run` replaced the delivery queue, so the event
`message "two"` is never delivered to this consumer. -/
theorem c4_subscriber_misses_events_cex :
    c4Bundle1.run.status.is_terminal = false ∧
    c4Bundle3.run.status = RunStatus.completed ∧
    c4Bundle3.run.output =
      [.message "one", .await_request, .message "two"] ∧
    genQueue c4Bundle1.queue_generation c4Trace =
      [.message "one", .await_request] ∧
    genQueue c4Bundle1.queue_generation c4Trace ≠ c4Bundle3.run.output := by
  refine ⟨rfl, rfl, rfl, rfl, ?_⟩
  decide

/-- Claim C4 (amended): what survives of the delivery guarantee: along any
sequence of bundle steps, the events on the current delivery-queue instance
are always a contiguous tail segment of the run's emitted output — delivered
in emission order, with no duplication and no reordering — but not all N
events: events emitted before the current queue instance was attached, in
particular any emitted before a resume replaced the queue, are never
delivered on it. -/
theorem c4_delivery_order_tail_segment {b b' : RunBundle}
    (h : Relation.ReflTransGen BundleStep b b')
    (h0 : isDeliveryTail b.stream_queue b.run.output) :
    isDeliveryTail b'.stream_queue b'.run.output := by
  induction h with
  | refl => exact h0
  | tail hsteps hstep ih => exact bundleStep_tail hstep ih

/-- Witness for the amended claim C4 along the concrete awaiter trace. -/
theorem c4_delivery_order_witness :
    isDeliveryTail c4Bundle3.stream_queue c4Bundle3.run.output :=
  c4_delivery_order_tail_segment
    (Relation.ReflTransGen.tail
      (Relation.ReflTransGen.single (BundleStep.resume "ok"))
      BundleStep.progress)
    ⟨[], rfl⟩

/-- Claim C5: a resume request in stream mode attaches to the existing Run
Bundle of the same run — no new run or registry entry is created and the
run's identity fields are unchanged — and the freshly attached reader
observes exactly the continuation: the streamed events are precisely the
events appended to the run's output after the resume (nothing replayed), and
the stream closes exactly when the run is terminal or re-enters Awaiting. -/
theorem c5_resume_stream_continuation (s : ServerState) (run_id : Nat)
    (payload : String) (b : RunBundle)
    (hb : dictGet s.runs run_id = some b) :
    resume_run s run_id { await_ := payload, mode := .stream } =
      .ok (.stream (resumedBundle payload b).stream_queue
             (resumedBundle payload b).run,
           { s with
               runs := dictSet (dictSet s.runs run_id (resumeBundle payload b))
                 run_id (resumedBundle payload b) }) ∧
    (resumedBundle payload b).run.run_id = b.run.run_id ∧
    (resumedBundle payload b).run.agent_name = b.run.agent_name ∧
    (resumedBundle payload b).run.session_id = b.run.session_id ∧
    (∀ j, j ≠ run_id →
       dictGet (dictSet (dictSet s.runs run_id (resumeBundle payload b))
         run_id (resumedBundle payload b)) j = dictGet s.runs j) ∧
    (resumedBundle payload b).run.output =
      b.run.output ++ (resumedBundle payload b).stream_queue ∧
    ((resumedBundle payload b).run.status = .awaiting ∨
     ((resumedBundle payload b).run.status).is_terminal = true) := by
  refine ⟨?_, ?_, ?_, ?_, ?_, ?_, ?_⟩
  · unfold resume_run find_run_bundle
    rw [hb]
    rfl
  · exact (scheduleProgress_run_fields _).1
  · exact (scheduleProgress_run_fields _).2.1
  · exact (scheduleProgress_run_fields _).2.2
  · intro j hj
    rw [dictGet_dictSet_ne _ _ _ _ hj, dictGet_dictSet_ne _ _ _ _ hj]
  · exact scheduleProgress_output_of_empty_queue rfl
  · exact scheduleProgress_close _

/-- Witness for C5 at the concrete awaiting run. -/
theorem c5_resume_stream_witness :
    (resumedBundle "ok" pendingBundle).run.output =
      pendingBundle.run.output ++ (resumedBundle "ok" pendingBundle).stream_queue ∧
    ((resumedBundle "ok" pendingBundle).run.status = .awaiting ∨
     ((resumedBundle "ok" pendingBundle).run.status).is_terminal = true) :=
  ⟨(c5_resume_stream_continuation pendingState 1 "ok" pendingBundle
      rfl).2.2.2.2.2.1,
   (c5_resume_stream_continuation pendingState 1 "ok" pendingBundle
      rfl).2.2.2.2.2.2⟩

/-- Claim C7: with a registered agent, `create_run` in async mode returns
immediately after scheduling: the 202 snapshot is the freshly constructed run
(status Created, no output) and the stored bundle still holds the whole
unexecuted handler sequence; in sync mode, `create_run` answers only after
the execution unit has stopped: the returned snapshot's status is terminal or
Awaiting, whichever the handler reaches first. -/
theorem c7_create_modes_async_sync (s : ServerState) (req : RunCreateRequest)
    (agent : Agent)
    (hagent : s.agents.find? (fun a => a.name == req.agent_name) = some agent) :
    (req.mode = .async →
       create_run s req =
         .ok (.accepted (initialBundle s req agent).run,
              { s with
                  runs := dictSet s.runs s.next_run_id (initialBundle s req agent),
                  next_run_id := s.next_run_id + 1 }) ∧
       (initialBundle s req agent).run.status = .created ∧
       (initialBundle s req agent).run.output = [] ∧
       (initialBundle s req agent).script = agent.script) ∧
    (req.mode = .sync →
       create_run s req =
         .ok (.snapshot (scheduleProgress (initialBundle s req agent)).run,
              { s with
                  runs := dictSet
                    (dictSet s.runs s.next_run_id (initialBundle s req agent))
                    s.next_run_id (scheduleProgress (initialBundle s req agent)),
                  next_run_id := s.next_run_id + 1 }) ∧
       ((scheduleProgress (initialBundle s req agent)).run.status = .awaiting ∨
        ((scheduleProgress (initialBundle s req agent)).run.status).is_terminal =
          true)) := by
  constructor
  · intro hm
    unfold create_run find_agent
    rw [hagent, hm]
    exact ⟨rfl, rfl, rfl, rfl⟩
  · intro hm
    unfold create_run find_agent
    rw [hagent, hm]
    exact ⟨rfl, scheduleProgress_close _⟩

/-- Witness for C7: the concrete sync request stops at Awaiting, the concrete
async request answers with the Created snapshot. -/
theorem c7_create_modes_witness :
    ((scheduleProgress (initialBundle demoState c7SyncReq awaiterAgent)).run.status
        = .awaiting ∨
     ((scheduleProgress (initialBundle demoState c7SyncReq awaiterAgent)).run.status).is_terminal
        = true) ∧
    (initialBundle demoState c7AsyncReq echoAgent).run.status = .created :=
  ⟨((c7_create_modes_async_sync demoState c7SyncReq awaiterAgent
      (by decide)).2 rfl).2,
   ((c7_create_modes_async_sync demoState c7AsyncReq echoAgent
      (by decide)).1 rfl).2.1⟩

/-- Claim C8: cancellation is idempotent before Cancelled is reached: a first
`cancel_run` on a non-terminal run moves it to Cancelling; a second
`cancel_run` on the resulting state returns the very same snapshot and leaves
the state exactly as the first call left it, and the execution unit still
converges to the single terminal Cancelled outcome. -/
theorem c8_cancel_idempotent (s : ServerState) (run_id : Nat) (b : RunBundle)
    (hb : dictGet s.runs run_id = some b)
    (hnt : b.run.status.is_terminal = false) :
    cancel_run s run_id =
      .ok ((cancelledBundle b).run,
           { s with runs := dictSet s.runs run_id (cancelledBundle b) }) ∧
    cancel_run
      { s with runs := dictSet s.runs run_id (cancelledBundle b) } run_id =
      .ok ((cancelledBundle b).run,
           { s with runs := dictSet s.runs run_id (cancelledBundle b) }) ∧
    (scheduleProgress (cancelledBundle b)).run.status = .cancelled := by
  refine ⟨?_, ?_, rfl⟩
  · unfold cancel_run find_run_bundle
    rw [hb]
    simp [hnt]
  · have hidem : cancelledBundle (cancelledBundle b) = cancelledBundle b := rfl
    have hcollapse :
        dictSet (dictSet s.runs run_id (cancelledBundle b)) run_id
          (cancelledBundle b) =
        dictSet s.runs run_id (cancelledBundle b) :=
      dictSet_eq_of_get _ _ _ (dictGet_dictSet_self s.runs run_id _)
    have hnt2 : (cancelledBundle b).run.status.is_terminal = false := rfl
    unfold cancel_run find_run_bundle
    rw [dictGet_dictSet_self]
    simp only [hnt2, hidem, hcollapse]
    simp

/-- Witness for C8 at the concrete awaiting run: the second cancel call is a
fixed point and the outcome is Cancelled. -/
theorem c8_cancel_idempotent_witness :
    cancel_run
      { pendingState with
          runs := dictSet pendingState.runs 1 (cancelledBundle pendingBundle) } 1 =
      .ok ((cancelledBundle pendingBundle).run,
           { pendingState with
               runs := dictSet pendingState.runs 1 (cancelledBundle pendingBundle) }) ∧
    (scheduleProgress (cancelledBundle pendingBundle)).run.status = .cancelled :=
  ⟨(c8_cancel_idempotent pendingState 1 pendingBundle rfl rfl).2.1,
   (c8_cancel_idempotent pendingState 1 pendingBundle rfl rfl).2.2⟩

/-- Claim C9: the run registry never removes a bundle: after any operation —
`create_run` with a fresh identifier, `resume_run` or `cancel_run` with any
arguments — a run that was present is still present, and when that run had
already reached a terminal state the retained run record (status, output and
terminal error) is exactly the one from before the operation, so `read_run`
keeps returning the same terminal snapshot. -/
theorem c9_registry_retention_terminal_reads (s : ServerState) (id1 : Nat)
    (b1 : RunBundle) (hb : dictGet s.runs id1 = some b1)
    (ht : b1.run.status.is_terminal = true) :
    read_run s id1 = .ok b1.run ∧
    (∀ req, dictGet s.runs s.next_run_id = none →
       ∃ b2, dictGet (resultState s (create_run s req)).runs id1 = some b2 ∧
         b2.run = b1.run) ∧
    (∀ id2 req, ∃ b2,
       dictGet (resultState s (resume_run s id2 req)).runs id1 = some b2 ∧
       b2.run = b1.run) ∧
    (∀ id2, ∃ b2,
       dictGet (resultState s (cancel_run s id2)).runs id1 = some b2 ∧
       b2.run = b1.run) := by
  refine ⟨?_, ?_, ?_, ?_⟩
  · unfold read_run find_run_bundle
    rw [hb]
  · intro req hfresh
    have hne : id1 ≠ s.next_run_id := by
      intro e
      rw [e, hfresh] at hb
      exact Option.noConfusion hb
    unfold create_run find_agent
    cases hfind : s.agents.find? (fun a => a.name == req.agent_name) with
    | none => exact ⟨b1, by simp [resultState, hb]⟩
    | some agent =>
      cases hm : req.mode with
      | sync =>
        refine ⟨b1, ?_, rfl⟩
        simp only [resultState]
        rw [dictGet_dictSet_ne _ _ _ _ hne, dictGet_dictSet_ne _ _ _ _ hne]
        exact hb
      | async =>
        refine ⟨b1, ?_, rfl⟩
        simp only [resultState]
        rw [dictGet_dictSet_ne _ _ _ _ hne]
        exact hb
      | stream =>
        refine ⟨b1, ?_, rfl⟩
        simp only [resultState]
        rw [dictGet_dictSet_ne _ _ _ _ hne, dictGet_dictSet_ne _ _ _ _ hne]
        exact hb
  · intro id2 req
    unfold resume_run find_run_bundle
    cases hb2 : dictGet s.runs id2 with
    | none => exact ⟨b1, by simp [resultState, hb]⟩
    | some b =>
      by_cases hid : id1 = id2
      · subst hid
        rw [hb] at hb2
        obtain rfl : b1 = b := Option.some.inj hb2
        have hterm : (resumeBundle req.await_ b1).run.status.is_terminal = true := ht
        cases hm : req.mode with
        | sync =>
          refine ⟨scheduleProgress (resumeBundle req.await_ b1), ?_, ?_⟩
          · simp only [resultState]
            rw [dictGet_dictSet_self]
          · rw [scheduleProgress_terminal hterm]
            rfl
        | async =>
          refine ⟨resumeBundle req.await_ b1, ?_, rfl⟩
          simp only [resultState]
          rw [dictGet_dictSet_self]
        | stream =>
          refine ⟨scheduleProgress (resumeBundle req.await_ b1), ?_, ?_⟩
          · simp only [resultState]
            rw [dictGet_dictSet_self]
          · rw [scheduleProgress_terminal hterm]
            rfl
      · cases hm : req.mode with
        | sync =>
          refine ⟨b1, ?_, rfl⟩
          simp only [resultState]
          rw [dictGet_dictSet_ne _ _ _ _ hid, dictGet_dictSet_ne _ _ _ _ hid]
          exact hb
        | async =>
          refine ⟨b1, ?_, rfl⟩
          simp only [resultState]
          rw [dictGet_dictSet_ne _ _ _ _ hid]
          exact hb
        | stream =>
          refine ⟨b1, ?_, rfl⟩
          simp only [resultState]
          rw [dictGet_dictSet_ne _ _ _ _ hid, dictGet_dictSet_ne _ _ _ _ hid]
          exact hb
  · intro id2
    cases hb2 : dictGet s.runs id2 with
    | none =>
      have hc : cancel_run s id2 =
          .error ⟨404, "Run " ++ toString id2 ++ " not found"⟩ := by
        unfold cancel_run find_run_bundle
        rw [hb2]
      exact ⟨b1, by rw [hc]; exact hb, rfl⟩
    | some b =>
      by_cases hterm2 : b.run.status.is_terminal = true
      · have hc : cancel_run s id2 =
            .error ⟨403, "Run with terminal status can't be cancelled"⟩ := by
          unfold cancel_run find_run_bundle
          rw [hb2]
          simp [hterm2]
        exact ⟨b1, by rw [hc]; exact hb, rfl⟩
      · have hc : cancel_run s id2 =
            .ok ((cancelledBundle b).run,
                 { s with runs := dictSet s.runs id2 (cancelledBundle b) }) := by
          unfold cancel_run find_run_bundle
          rw [hb2]
          simp [hterm2]
        by_cases hid : id1 = id2
        · subst hid
          rw [hb] at hb2
          obtain rfl : b1 = b := Option.some.inj hb2
          rw [ht] at hterm2
          exact absurd rfl hterm2
        · refine ⟨b1, ?_, rfl⟩
          rw [hc]
          show dictGet (dictSet s.runs id2 (cancelledBundle b)) id1 = some b1
          rw [dictGet_dictSet_ne _ _ _ _ hid]
          exact hb

/-- Witness for C9 at the concrete completed run: reading it back after a
resume request on it still returns the same terminal snapshot. -/
theorem c9_registry_retention_witness :
    read_run doneState 0 = .ok doneBundle.run ∧
    read_run (resultState doneState (resume_run doneState 0 c1Req)) 0 =
      .ok doneBundle.run := by
  refine ⟨(c9_registry_retention_terminal_reads doneState 0 doneBundle rfl
    rfl).1, ?_⟩
  obtain ⟨b2, h1, h2⟩ :=
    (c9_registry_retention_terminal_reads doneState 0 doneBundle rfl
      rfl).2.2.1 0 c1Req
  unfold read_run find_run_bundle
  rw [h1, ← h2]

end ACP
